import Mathlib

/- Verification of a football-scouting dashboard.

   The program under study consists of three Python modules:
     eda.py    - feature engineering (create_features), chart builders
                 (plot_top_players, plot_efficiency_scatter, ...) and the
                 summary generator (get_dynamic_eda_summary);
     app.py    - the dashboard shell, in particular the filter application
                 over the featured dataframe;
     agent.py  - get_agent_response, the wrapper around the completion
                 service.

   The embedding below translates those functions into Lean.  Machine
   numbers of the dataframe are modelled as Nat (counts, ages, cards) and
   as rationals (market values and derived ratios); dataframe mutation is
   modelled by explicit state passing (a function that may write into the
   caller's frame returns the caller's frame after the call together with
   its result); Python exceptions are modelled with Except. -/

namespace Scouting

/-- One raw player record, one CSV row with the required columns
Name, Club, Primary Nationality, Position, Age, Market Value, Goals,
Assists, Yellow Cards, Red Cards. -/
structure Row where
  name : String
  club : String
  nationality : String
  position : String
  age : Nat
  marketValue : ℚ
  goals : Nat
  assists : Nat
  yellowCards : Nat
  redCards : Nat
deriving DecidableEq, Repr

/-- The Performance column written by create_features:
df_copy[Performance] = df_copy[Goals] + df_copy[Assists]. -/
def performance (r : Row) : Nat := r.goals + r.assists

/-- The Cost_per_Performance column written by create_features:
row[Market Value] / row[Performance] if row[Performance] > 0 else 0. -/
def cost_per_performance (r : Row) : ℚ :=
  if 0 < performance r then r.marketValue / (performance r : ℚ) else 0

/-- First pd.cut label of create_features. -/
def youngLabel : String := "Joven Promesa (<=21)"

/-- Second pd.cut label of create_features. -/
def primeLabel : String := "En su Prime (22-29)"

/-- Third pd.cut label of create_features. -/
def veteranLabel : String := "Veterano (30+)"

/-- The Age Group column written by create_features:
pd.cut(df_copy[Age], bins=[0, 21, 29, 40], labels, right=True), i.e. the
right-closed intervals (0,21], (21,29], (29,40]; a value outside every bin
gets the null category (pandas NaN), modelled as none. -/
def age_group (a : Nat) : Option String :=
  if 0 < a ∧ a ≤ 21 then some youngLabel
  else if 21 < a ∧ a ≤ 29 then some primeLabel
  else if 29 < a ∧ a ≤ 40 then some veteranLabel
  else none

/-- A dataframe as create_features sees it: the base rows plus the three
derived columns, each either absent (none) or present with one value per
row.  Structure equality is value equality of the whole frame. -/
structure DF where
  rows : List Row
  perfCol : Option (List Nat) := none
  cppCol : Option (List ℚ) := none
  ageGroupCol : Option (List (Option String)) := none
deriving DecidableEq

/-- create_features of eda.py.  The Python function first takes
df_copy = df.copy() and then writes the three derived columns into
df_copy only, returning df_copy.  The embedding makes the heap effect
explicit: the result pair is (the caller's frame after the call, the
returned frame).  Every column write below targets the copy, exactly as
every assignment in the source targets df_copy. -/
def create_features (df : DF) : DF × DF :=
  let dfc0 := df
  let dfc1 := { dfc0 with perfCol := some (dfc0.rows.map performance) }
  let dfc2 := { dfc1 with cppCol := some (dfc1.rows.map cost_per_performance) }
  let dfc3 := { dfc2 with ageGroupCol := some (dfc2.rows.map fun r => age_group r.age) }
  (df, dfc3)

/-- A featured row: the per-row view of a frame that went through
create_features, as consumed by the filter application in app.py and by
get_dynamic_eda_summary. -/
structure FRow where
  base : Row
  performance : Nat
  cpp : ℚ
  ageGroup : Option String
deriving DecidableEq, Repr

/-- The featured row create_features produces for one raw row. -/
def featureRow (r : Row) : FRow :=
  ⟨r, performance r, cost_per_performance r, age_group r.age⟩

/-- The filter application of app.py (df_filtered = df.copy(); then one
conditional isin filter per non-empty multiselect, then the inclusive Age
between filter).  In Python a multiselect value is truthy exactly when the
list is non-empty, so an empty selection skips its filter. -/
def applyFilters (df : List FRow) (clubs nationalities positions : List String)
    (ageLo ageHi : Nat) : List FRow :=
  let d0 := df
  let d1 := if clubs.isEmpty then d0 else
    d0.filter (fun r => clubs.contains r.base.club)
  let d2 := if nationalities.isEmpty then d1 else
    d1.filter (fun r => nationalities.contains r.base.nationality)
  let d3 := if positions.isEmpty then d2 else
    d2.filter (fun r => positions.contains r.base.position)
  d3.filter (fun r => decide (ageLo ≤ r.base.age) && decide (r.base.age ≤ ageHi))

/-- Does the character sequence start with the given pattern. -/
def startsWithSeq : List Char → List Char → Bool
  | [], _ => true
  | _ :: _, [] => false
  | a :: as, b :: bs => a == b && startsWithSeq as bs

/-- Does the character sequence contain the pattern somewhere. -/
def containsSeq (pat : List Char) : List Char → Bool
  | [] => pat.isEmpty
  | c :: rest => startsWithSeq pat (c :: rest) || containsSeq pat rest

/-- Substring test, modelling one literal alternative of the regular
expression given to Series.str.contains. -/
def strContainsPat (s pat : String) : Bool := containsSeq pat.toList s.toList

/-- Row selected by df[Position].str.contains with Forward or Winger. -/
def isForward (r : FRow) : Bool :=
  strContainsPat r.base.position "Forward" || strContainsPat r.base.position "Winger"

/-- Row selected by df[Position].str.contains with Midfield. -/
def isMidfielder (r : FRow) : Bool := strContainsPat r.base.position "Midfield"

/-- Row selected by df[Position].str.contains with Centre-Back or Full-Back. -/
def isDefender (r : FRow) : Bool :=
  strContainsPat r.base.position "Centre-Back" || strContainsPat r.base.position "Full-Back"

/-- Series.idxmax followed by df.loc: the first row attaining the maximum
of the key (pandas idxmax returns the first index of the maximum). -/
def idxmaxBy (f : FRow → ℚ) : List FRow → Option FRow
  | [] => none
  | r :: rs => some (rs.foldl (fun best x => if f best < f x then x else best) r)

/-- Series.idxmin followed by df.loc: the first row attaining the minimum
of the key. -/
def idxminBy (f : FRow → ℚ) : List FRow → Option FRow
  | [] => none
  | r :: rs => some (rs.foldl (fun best x => if f x < f best then x else best) r)

/-- Series.mean as an exact rational. -/
def meanQ (l : List ℚ) : ℚ := l.sum / (l.length : ℚ)

/-- Round to the nearest integer, the rounding used when rendering a
number with zero decimals. -/
def roundQ (q : ℚ) : ℤ := Rat.floor (q + 1 / 2)

/-- Insert a thousands separator after every third character of a reversed
digit list. -/
def group3 : List Char → List Char
  | a :: b :: c :: d :: rest => a :: b :: c :: ',' :: group3 (d :: rest)
  | l => l

/-- Render a natural number with thousands separators. -/
def commaSepNat (n : Nat) : String :=
  String.mk ((group3 (toString n).toList.reverse).reverse)

/-- Python format with comma grouping and zero decimals. -/
def fmtComma0 (q : ℚ) : String :=
  let n := roundQ q
  if n < 0 then "-" ++ commaSepNat n.natAbs else commaSepNat n.toNat

/-- Python format with one decimal place. -/
def fmtOneDec (q : ℚ) : String :=
  let n := roundQ (10 * q)
  if n < 0 then "-" ++ toString (n.natAbs / 10) ++ "." ++ toString (n.natAbs % 10)
  else toString (n.toNat / 10) ++ "." ++ toString (n.toNat % 10)

/-- Number of occurrences of a value in a column. -/
def countOcc (l : List String) (x : String) : Nat :=
  (l.filter (fun y => y == x)).length

/-- Boolean lexicographic order on character lists, by code point. -/
def lexLtChar : List Char → List Char → Bool
  | [], [] => false
  | [], _ :: _ => true
  | _ :: _, [] => false
  | a :: as, b :: bs =>
      if a.toNat < b.toNat then true
      else if b.toNat < a.toNat then false
      else lexLtChar as bs

/-- Boolean lexicographic order on strings. -/
def strLexLt (s t : String) : Bool := lexLtChar s.toList t.toList

/-- Series.mode().iloc[0]: a most frequent value of the column; pandas
returns the modes sorted, so iloc[0] is the smallest of them.  none exactly
when the column is empty. -/
def modeFirst (l : List String) : Option String :=
  let uniq := l.eraseDups
  let m := (uniq.map (countOcc l)).foldr max 0
  (uniq.filter (fun c => countOcc l c == m)).foldl
    (fun acc c =>
      match acc with
      | none => some c
      | some b => if strLexLt c b then some c else some b) none

/-- The fixed sentinel returned by get_dynamic_eda_summary on an empty
frame. -/
def noMatchText : String :=
  "No hay jugadores que coincidan con los filtros seleccionados."

/-- Overview block of the summary: header with the row count, mean age,
mean market value, modal club (the club line is emitted whenever the Club
column is non-empty, which for a non-empty frame is always). -/
def overviewSection (l : List FRow) : String :=
  "**INFORME DE SCOUTING PARA " ++ toString l.length ++ " JUGADORES**\n\n"
  ++ "**Visión General:**\n"
  ++ "- **Edad Promedio:** " ++ fmtOneDec (meanQ (l.map fun r => (r.base.age : ℚ)))
  ++ " años\n"
  ++ "- **Valor de Mercado Promedio:** "
  ++ fmtComma0 (meanQ (l.map fun r => r.base.marketValue)) ++ " EUR\n"
  ++ (match modeFirst (l.map fun r => r.base.club) with
      | some c => "- **Club con más Jugadores:** " ++ c ++ "\n"
      | none => "")
  ++ "--- \n"

/-- Best forward line of the summary (idxmax of Performance over the
forwards, emitted only when there is a forward). -/
def forwardLine (l : List FRow) : String :=
  let fwds := l.filter isForward
  match idxmaxBy (fun r => (r.performance : ℚ)) fwds with
  | none => ""
  | some t =>
      "- **Mejor Delantero:** " ++ t.base.name ++ " (" ++ t.base.club ++ ") con "
      ++ toString t.performance ++ " contribuciones (Promedio: "
      ++ fmtOneDec (meanQ (fwds.map fun r => (r.performance : ℚ))) ++ ").\n"

/-- Best midfielder line of the summary. -/
def midfielderLine (l : List FRow) : String :=
  let mids := l.filter isMidfielder
  match idxmaxBy (fun r => (r.performance : ℚ)) mids with
  | none => ""
  | some t =>
      "- **Mejor Mediocampista:** " ++ t.base.name ++ " (" ++ t.base.club ++ ") con "
      ++ toString t.performance ++ " contribuciones (Promedio: "
      ++ fmtOneDec (meanQ (mids.map fun r => (r.performance : ℚ))) ++ ").\n"

/-- Best defender by market value line of the summary. -/
def defenderLine (l : List FRow) : String :=
  let defRows := l.filter isDefender
  match idxmaxBy (fun r => r.base.marketValue) defRows with
  | none => ""
  | some t =>
      "- **Mejor Defensor (por Valor):** " ++ t.base.name ++ " (" ++ t.base.club
      ++ ") valorado en " ++ fmtComma0 t.base.marketValue ++ " EUR.\n"

/-- The most efficient ranking base of get_dynamic_eda_summary:
performers = df[df[Cost_per_Performance] > 0]. -/
def performers (l : List FRow) : List FRow :=
  l.filter (fun r => decide (0 < r.cpp))

/-- The most efficient player of get_dynamic_eda_summary:
performers.loc[performers[Cost_per_Performance].idxmin()], none exactly
when performers is empty. -/
def mostEfficient (l : List FRow) : Option FRow :=
  idxminBy (fun r => r.cpp) (performers l)

/-- Moneyball line of the summary, emitted only when performers is
non-empty. -/
def efficiencyLine (l : List FRow) : String :=
  match mostEfficient l with
  | none => ""
  | some m =>
      "- **Jugador más Eficiente (Moneyball):** " ++ m.base.name ++ " ("
      ++ m.base.club ++ "), costo de " ++ fmtComma0 m.cpp
      ++ " EUR por contribución.\n"

/-- Young standout line of the summary (idxmax of Performance over the
players of age at most 21). -/
def youngLine (l : List FRow) : String :=
  let young := l.filter (fun r => decide (r.base.age ≤ 21))
  match idxmaxBy (fun r => (r.performance : ℚ)) young with
  | none => ""
  | some t =>
      "- **Joven Promesa Destacada:** " ++ t.base.name ++ " ("
      ++ toString t.base.age ++ " años), el sub-21 con mejor rendimiento ("
      ++ toString t.performance ++ " contribuciones).\n"

/-- Veteran line of the summary (idxmax of Performance over the players of
age at least 30). -/
def veteranLine (l : List FRow) : String :=
  let vets := l.filter (fun r => decide (30 ≤ r.base.age))
  match idxmaxBy (fun r => (r.performance : ℚ)) vets with
  | none => ""
  | some t =>
      "- **Veterano de Impacto Inmediato:** " ++ t.base.name ++ " ("
      ++ toString t.base.age ++ " años), el mayor de 30 con mejor rendimiento ("
      ++ toString t.performance ++ " contribuciones).\n"

/-- The Total Cards value the summary computes for one row:
df[Yellow Cards] + df[Red Cards]. -/
def totalCardsOf (r : FRow) : Nat := r.base.yellowCards + r.base.redCards

/-- Disciplinary risk line of the summary, emitted only when the maximal
Total Cards value is positive. -/
def disciplineLine (l : List FRow) : String :=
  if 0 < (l.map totalCardsOf).foldr max 0 then
    match idxmaxBy (fun r => (totalCardsOf r : ℚ)) l with
    | none => ""
    | some t =>
        "- **Riesgo Disciplinario:** " ++ t.base.name
        ++ " es el jugador con más tarjetas (" ++ toString (totalCardsOf t) ++ ").\n"
  else ""

/-- The text produced by get_dynamic_eda_summary of eda.py: the fixed
sentinel on an empty frame, otherwise the concatenation of the sections in
the source's order.  Every piece is a function of the featured rows alone:
the source reads no clock and draws no random numbers. -/
def get_dynamic_eda_summary (l : List FRow) : String :=
  if l.isEmpty then noMatchText
  else
    overviewSection l
    ++ "**Análisis por Posición:**\n"
    ++ forwardLine l ++ midfielderLine l ++ defenderLine l
    ++ "---\n"
    ++ "**Hallazgos Clave:**\n"
    ++ efficiencyLine l ++ youngLine l ++ veteranLine l ++ disciplineLine l

/-- The dataframe state get_dynamic_eda_summary operates on: the featured
rows plus the Total Cards column, which the function itself may write into
the caller's frame. -/
structure SDF where
  frows : List FRow
  totalCardsCol : Option (List Nat)
deriving DecidableEq

/-- get_dynamic_eda_summary with its frame effect made explicit.  The
source returns the sentinel before touching the frame when it is empty;
otherwise the assignment df[Total Cards] = df[Yellow Cards] + df[Red Cards]
writes into the caller's frame (there is no copy in this function), so the
result pair is (the text, the caller's frame after the call). -/
def get_dynamic_eda_summary_call (s : SDF) : String × SDF :=
  if s.frows.isEmpty then (noMatchText, s)
  else (get_dynamic_eda_summary s.frows,
        { s with totalCardsCol := some (s.frows.map totalCardsOf) })

/-- A dataframe as the chart builders see it: a column list and rows of
column-keyed numeric cells (only column presence and numeric ordering
matter to the properties below). -/
structure ChartDF where
  columns : List String
  rows : List (List (String × ℚ))
deriving DecidableEq

/-- Cell access inside a row already known to have the column. -/
def cellOf (r : List (String × ℚ)) (c : String) : ℚ := (r.lookup c).getD 0

/-- Stable descending insertion: on ties the earlier row stays first,
matching the keep-first behaviour of DataFrame.nlargest. -/
def insertDescBy (key : List (String × ℚ) → ℚ) (x : List (String × ℚ)) :
    List (List (String × ℚ)) → List (List (String × ℚ))
  | [] => [x]
  | y :: ys => if key x < key y then y :: insertDescBy key x ys else x :: y :: ys

/-- Stable descending sort by a key. -/
def sortDescBy (key : List (String × ℚ) → ℚ) :
    List (List (String × ℚ)) → List (List (String × ℚ))
  | [] => []
  | x :: xs => insertDescBy key x (sortDescBy key xs)

/-- DataFrame.nlargest(n, c): the n rows with the largest c values; when
the column is absent pandas raises KeyError, modelled as Except.error. -/
def nlargest (df : ChartDF) (n : Nat) (c : String) : Except String ChartDF :=
  if df.columns.contains c then
    Except.ok { df with rows := (sortDescBy (fun r => cellOf r c) df.rows).take n }
  else Except.error ("KeyError: " ++ c)

/-- The renderable artifact a chart builder returns: the data it plots and
the title. -/
structure Chart where
  chartData : List (List (String × ℚ))
  title : String
deriving DecidableEq

/-- plot_top_players of eda.py: top_10 = df.nlargest(10, metric), then a
bar chart of top_10 with y drawn from the Name column.  The source
performs no column-presence check of its own: a missing metric column
surfaces as the KeyError of nlargest, and a missing Name column as the
error of the plotting call. -/
def plot_top_players (df : ChartDF) (metric title : String) : Except String Chart :=
  match nlargest df 10 metric with
  | Except.error e => Except.error e
  | Except.ok top10 =>
      if df.columns.contains "Name" then Except.ok ⟨top10.rows, title⟩
      else Except.error "KeyError: Name"

/-- plot_efficiency_scatter of eda.py: selects df[df[Performance] > 0] and
scatters it against Market Value with Age Group hue and
Cost_per_Performance size.  Again no column-presence check exists in the
source: each access of a missing column raises, modelled as Except.error. -/
def plot_efficiency_scatter (df : ChartDF) : Except String Chart :=
  if df.columns.contains "Performance" then
    let filtered := df.rows.filter (fun r => decide (0 < cellOf r "Performance"))
    if df.columns.contains "Market Value" then
      if df.columns.contains "Age Group" then
        if df.columns.contains "Cost_per_Performance" then
          Except.ok ⟨filtered, "Análisis de Eficiencia: Valor vs. Rendimiento"⟩
        else Except.error "KeyError: Cost_per_Performance"
      else Except.error "KeyError: Age Group"
    else Except.error "KeyError: Market Value"
  else Except.error "KeyError: Performance"

/-- The configuration agent.py passes to the ChatGroq client: temperature
zero, the caller's key, and the fixed model name. -/
structure ChatGroqCfg where
  temperature : ℚ
  groq_api_key : String
  model_name : String

/-- Fixed head of the prompt template of agent.py, up to the first
interpolation point. -/
def promptHead : String :=
  "\n        Eres un analista de datos de fútbol profesional. Tu única fuente de verdad es el siguiente \"Resumen de Datos\".\n        Debes responder la \"Pregunta del Usuario\" basándote exclusivamente en la información contenida en el \"Resumen de Datos\".\n        No uses ningún conocimiento externo. Si la pregunta no se puede responder con el resumen, indica que no tienes suficiente información.\n        Si la respuesta incluye un jugador, menciona su nombre tal como aparece en el resumen.\n\n        ---\n        **Resumen de Datos:**\n        "

/-- Fixed middle of the prompt template, between the two interpolation
points. -/
def promptMid : String :=
  "\n        ---\n        **Pregunta del Usuario:**\n        "

/-- Fixed tail of the prompt template. -/
def promptTail : String :=
  "\n        ---\n        **Respuesta del Analista:**\n        "

/-- ChatPromptTemplate.from_template followed by chain.invoke: the
template with the summary and the question interpolated at its two
points. -/
def render_prompt (eda_summary question : String) : String :=
  promptHead ++ eda_summary ++ promptMid ++ question ++ promptTail

/-- The model name agent.py fixes. -/
def agentModelName : String := "llama3-70b-8192"

/-- The error text prepended by the except branch of get_agent_response. -/
def agentErrorHead : String :=
  "Ocurrió un error al contactar al modelo de lenguaje: "

/-- get_agent_response of agent.py.  The whole body sits inside one
try/except.  The completion service is external, so it enters as a
parameter mapping (client configuration, rendered prompt) to either a
returned text (Except.ok) or a raised failure with message e
(Except.error e); the except branch converts the latter into the inline
error string.  The embedding is a total function: no input makes it
propagate a failure. -/
def get_agent_response (svc : ChatGroqCfg → String → Except String String)
    (api_key eda_summary question : String) : String :=
  match svc ⟨0, api_key, agentModelName⟩ (render_prompt eda_summary question) with
  | Except.ok r => r
  | Except.error e => agentErrorHead ++ e

/-- Test row A of the specification scenario: age 20, 10 goals,
5 assists, value 1,000,000. -/
def rowA : Row := ⟨"A", "CA", "X", "Forward", 20, 1000000, 10, 5, 1, 0⟩

/-- Test row B of the specification scenario: age 25, 2 goals, 1 assist,
value 500,000. -/
def rowB : Row := ⟨"B", "CB", "Y", "Midfield", 25, 500000, 2, 1, 3, 1⟩

/-- Test row C of the specification scenario: age 35, no goal
contributions, value 2,000,000. -/
def rowC : Row := ⟨"C", "CC", "Z", "Centre-Back", 35, 2000000, 0, 0, 0, 0⟩

/-- A concrete featured row with positive performance and a positive,
already-normalised efficiency value. -/
def frA : FRow := ⟨rowA, 15, 66667, some youngLabel⟩

/-- A concrete featured row for a midfielder. -/
def frB : FRow := ⟨rowB, 3, 166667, some primeLabel⟩

/-- A concrete featured row with zero performance and the sentinel zero
efficiency. -/
def frC : FRow := ⟨rowC, 0, 0, some veteranLabel⟩

/-- A concrete summary-generator frame without a Total Cards column. -/
def sdfA : SDF := ⟨[frA, frB], none⟩

/-- The fold inside idxminBy only ever keeps the accumulator or switches to
a later element, so its value is one of the candidates. -/
lemma foldl_pickMin_mem (f : FRow → ℚ) :
    ∀ (rs : List FRow) (r : FRow),
      rs.foldl (fun best x => if f x < f best then x else best) r ∈ r :: rs := by
  intro rs
  induction rs with
  | nil => intro r; simp
  | cons y ys ih =>
      intro r
      have h := ih (if f y < f r then y else r)
      simp only [List.foldl_cons]
      rcases List.mem_cons.mp h with h1 | h1
      · rw [h1]
        by_cases hc : f y < f r
        · simp [hc]
        · simp [hc]
      · exact List.mem_cons_of_mem _ (List.mem_cons_of_mem _ h1)

/-- idxminBy returns an element of its input list. -/
lemma idxminBy_mem (f : FRow → ℚ) (l : List FRow) (x : FRow)
    (h : idxminBy f l = some x) : x ∈ l := by
  cases l with
  | nil => simp [idxminBy] at h
  | cons r rs =>
      simp only [idxminBy, Option.some.injEq] at h
      exact h ▸ foldl_pickMin_mem f rs r

/-- C1: For every record set containing Goals, Assists and Market Value
columns, the create_features output has, for every row,
Performance = Goals + Assists, and Cost_per_Performance equals
Market Value / Performance when Performance is positive and the sentinel 0
when Performance is zero.  The embedding is a total function into exact
rationals, so no input makes it raise or produce NaN or an infinity. -/
theorem C1_feature_engineering (df : DF) :
    ((create_features df).2.perfCol = some (df.rows.map performance)) ∧
    ((create_features df).2.cppCol = some (df.rows.map cost_per_performance)) ∧
    (∀ r : Row, performance r = r.goals + r.assists) ∧
    (∀ r : Row, 0 < performance r →
      cost_per_performance r = r.marketValue / (performance r : ℚ)) ∧
    (∀ r : Row, performance r = 0 → cost_per_performance r = 0) := by
  refine ⟨rfl, rfl, fun r => rfl, fun r h => ?_, fun r h => ?_⟩
  · rw [cost_per_performance, if_pos h]
  · rw [cost_per_performance, if_neg (by omega)]

/-- Witness for C1 at the concrete scenario rows: row A has positive
performance and the quotient value, row C has performance zero and the
sentinel. -/
theorem C1_feature_engineering_witness :
    cost_per_performance rowA = rowA.marketValue / (performance rowA : ℚ) ∧
    cost_per_performance rowC = 0 :=
  ⟨(C1_feature_engineering ⟨[rowA], none, none, none⟩).2.2.2.1 rowA (by decide),
   (C1_feature_engineering ⟨[rowA], none, none, none⟩).2.2.2.2 rowC (by decide)⟩

/-- C2: For every record set whose rows carry the feature-engineering
invariant (a row of performance zero carries the sentinel zero
efficiency, as every create_features row does), the most efficient ranking
of the summary generator - the performers selection and its idxmin row -
never contains a record of performance zero. -/
theorem C2_most_efficient_excludes_zero_performance (l : List FRow) (fr : FRow)
    (hfeat : ∀ x ∈ l, x.performance = 0 → x.cpp = 0) :
    (fr ∈ performers l → 0 < fr.performance) ∧
    (mostEfficient l = some fr → 0 < fr.performance) := by
  have key : fr ∈ performers l → 0 < fr.performance := by
    intro hm
    obtain ⟨hmem, hp⟩ := List.mem_filter.mp hm
    have hcpp : 0 < fr.cpp := of_decide_eq_true hp
    by_contra h0
    have hz : fr.performance = 0 := by omega
    rw [hfeat fr hmem hz] at hcpp
    exact lt_irrefl 0 hcpp
  refine ⟨key, fun hme => key ?_⟩
  exact idxminBy_mem (fun r => r.cpp) (performers l) fr hme

/-- Witness for C2 at a concrete two-row frame: the zero-performance row
is filtered out and the surviving performer has positive performance. -/
theorem C2_most_efficient_witness :
    frA ∈ performers [frA, frC] ∧ 0 < frA.performance :=
  ⟨by decide,
   (C2_most_efficient_excludes_zero_performance [frA, frC] frA (by decide)).1
     (by decide)⟩

/-- C3: On the empty record set the summary generator returns the fixed
no-matching-records sentinel, which is not the empty string, and performs
no frame write; the embedding is total, so it never raises. -/
theorem C3_empty_summary_sentinel (tc : Option (List Nat)) :
    (get_dynamic_eda_summary_call ⟨[], tc⟩).1 = noMatchText ∧
    (get_dynamic_eda_summary_call ⟨[], tc⟩).2 = ⟨[], tc⟩ ∧
    noMatchText ≠ "" ∧
    get_dynamic_eda_summary [] = noMatchText :=
  ⟨rfl, rfl, by decide, rfl⟩

/-- C4: The summary text is a deterministic function of the featured rows
alone - it does not depend on the state of the Total Cards column the call
itself writes - so a second call on the same record set (including the
frame state the first call leaves behind) produces byte-identical text. -/
theorem C4_summary_deterministic (s : SDF) (tc : Option (List Nat)) :
    ((get_dynamic_eda_summary_call { s with totalCardsCol := tc }).1 =
      (get_dynamic_eda_summary_call s).1) ∧
    ((get_dynamic_eda_summary_call (get_dynamic_eda_summary_call s).2).1 =
      (get_dynamic_eda_summary_call s).1) := by
  by_cases h : s.frows.isEmpty <;>
    simp [get_dynamic_eda_summary_call, h]

/-- C5: With all three inclusion lists empty and the age range covering
every observed age, the filter application returns exactly the input
record set: an empty multiselect skips its filter. -/
theorem C5_filter_identity (df : List FRow) (ageLo ageHi : Nat)
    (h : ∀ r ∈ df, ageLo ≤ r.base.age ∧ r.base.age ≤ ageHi) :
    applyFilters df [] [] [] ageLo ageHi = df := by
  unfold applyFilters
  simp only [List.isEmpty_nil, if_true]
  rw [List.filter_eq_self]
  intro a ha
  have hh := h a ha
  simp [hh.1, hh.2]

/-- Witness for C5: the three scenario rows pass through unchanged under
empty selections and the full age range. -/
theorem C5_filter_identity_witness :
    applyFilters [featureRow rowA, featureRow rowB, featureRow rowC] [] [] [] 0 99 =
      [featureRow rowA, featureRow rowB, featureRow rowC] :=
  C5_filter_identity [featureRow rowA, featureRow rowB, featureRow rowC] 0 99
    (by decide)

/-- C6 counterexample: age 0 lies in the interval [0,40] and satisfies
age at most 21, yet pd.cut with bins [0, 21, 29, 40] is left-open at 0, so
create_features leaves an age-0 row unclassified (null category) instead
of labelling it Young Prospect as the claim states. -/
theorem C6_age_zero_counterexample :
    (0 : Nat) ≤ 21 ∧ (0 : Nat) ≤ 40 ∧ age_group 0 = none ∧
    age_group 0 ≠ some youngLabel ∧
    (create_features ⟨[{ rowA with age := 0 }], none, none, none⟩).2.ageGroupCol =
      some [none] :=
  ⟨by decide, by decide, rfl, by decide, rfl⟩

/-- C6 (amended): create_features assigns Age Group via the right-closed
partition (0,21] Young Prospect, (21,29] Prime, (29,40] Veteran, so ages 1
to 21 are Young Prospect, 22 to 29 Prime, 30 to 40 Veteran, and every age
outside (0,40] - age 0 included - receives the null category rather than
raising. -/
theorem C6_age_partition_amended (df : DF) (a : Nat) :
    ((create_features df).2.ageGroupCol =
      some (df.rows.map fun r => age_group r.age)) ∧
    (1 ≤ a → a ≤ 21 → age_group a = some youngLabel) ∧
    (22 ≤ a → a ≤ 29 → age_group a = some primeLabel) ∧
    (30 ≤ a → a ≤ 40 → age_group a = some veteranLabel) ∧
    (a = 0 → age_group a = none) ∧
    (40 < a → age_group a = none) := by
  refine ⟨rfl, fun h1 h2 => ?_, fun h1 h2 => ?_, fun h1 h2 => ?_,
    fun h0 => ?_, fun h4 => ?_⟩
  · rw [age_group, if_pos (show 0 < a ∧ a ≤ 21 by omega)]
  · rw [age_group, if_neg (by omega), if_pos (show 21 < a ∧ a ≤ 29 by omega)]
  · rw [age_group, if_neg (by omega), if_neg (by omega),
      if_pos (show 29 < a ∧ a ≤ 40 by omega)]
  · rw [age_group, if_neg (by omega), if_neg (by omega), if_neg (by omega)]
  · rw [age_group, if_neg (by omega), if_neg (by omega), if_neg (by omega)]

/-- Witness for C6 (amended) at one concrete age per bin and per
out-of-range side. -/
theorem C6_age_partition_witness :
    age_group 20 = some youngLabel ∧ age_group 25 = some primeLabel ∧
    age_group 35 = some veteranLabel ∧ age_group 0 = none ∧
    age_group 41 = none :=
  ⟨(C6_age_partition_amended ⟨[], none, none, none⟩ 20).2.1 (by decide) (by decide),
   (C6_age_partition_amended ⟨[], none, none, none⟩ 25).2.2.1 (by decide) (by decide),
   (C6_age_partition_amended ⟨[], none, none, none⟩ 35).2.2.2.1 (by decide) (by decide),
   (C6_age_partition_amended ⟨[], none, none, none⟩ 0).2.2.2.2.1 rfl,
   (C6_age_partition_amended ⟨[], none, none, none⟩ 41).2.2.2.2.2 (by decide)⟩

/-- C7: get_agent_response never propagates a failure of the completion
service: when the service returns text it passes the text through, and
when the service raises with message e it returns the fixed human-readable
error string with e embedded after it. -/
theorem C7_agent_error_handling (svc : ChatGroqCfg → String → Except String String)
    (k s q : String) :
    (∀ r, svc ⟨0, k, agentModelName⟩ (render_prompt s q) = Except.ok r →
      get_agent_response svc k s q = r) ∧
    (∀ e, svc ⟨0, k, agentModelName⟩ (render_prompt s q) = Except.error e →
      get_agent_response svc k s q = agentErrorHead ++ e) := by
  constructor <;> intro x hx <;> simp [get_agent_response, hx]

/-- Witness for C7 against a service that always raises: the call returns
the inline error string, not an exception. -/
theorem C7_agent_error_handling_witness :
    get_agent_response (fun _ _ => Except.error "invalid api key") "k" "resumen"
      "pregunta" = agentErrorHead ++ "invalid api key" :=
  (C7_agent_error_handling (fun _ _ => Except.error "invalid api key") "k"
    "resumen" "pregunta").2 "invalid api key" rfl

/-- C8: Contrary to the claim, the chart builders perform no
column-presence check: requesting the Goals metric on a frame without a
Goals column makes nlargest raise KeyError, which propagates out of
plot_top_players, and plot_efficiency_scatter likewise raises on its first
access of the missing Performance column. -/
theorem C8_missing_column_raises :
    plot_top_players ⟨["Name"], []⟩ "Goals" "Top 10 Goleadores" =
      Except.error "KeyError: Goals" ∧
    plot_efficiency_scatter ⟨["Name"], []⟩ =
      Except.error "KeyError: Performance" :=
  ⟨rfl, rfl⟩

/-- C9: create_features is pure with copy semantics: the caller's frame
after the call is exactly the input frame (all writes hit the copy), and
the returned frame is the input augmented with the three derived columns,
its base rows untouched. -/
theorem C9_create_features_pure (df : DF) :
    (create_features df).1 = df ∧
    (create_features df).2.rows = df.rows ∧
    (create_features df).2 =
      { df with perfCol := some (df.rows.map performance),
                cppCol := some (df.rows.map cost_per_performance),
                ageGroupCol := some (df.rows.map fun r => age_group r.age) } :=
  ⟨rfl, rfl, rfl⟩

/-- C10: On every non-empty record set the summary generator writes the
Total Cards column (Yellow Cards + Red Cards) directly into the caller's
frame: after the call the caller's frame carries that column, and whenever
the column was absent before the call the caller's frame has changed. -/
theorem C10_summary_mutates_caller (s : SDF) (h : s.frows ≠ []) :
    (get_dynamic_eda_summary_call s).2.totalCardsCol =
      some (s.frows.map totalCardsOf) ∧
    (s.totalCardsCol = none → (get_dynamic_eda_summary_call s).2 ≠ s) := by
  have he : s.frows.isEmpty = false := by
    cases hf : s.frows with
    | nil => exact absurd hf h
    | cons a l => rfl
  constructor
  · simp [get_dynamic_eda_summary_call, he]
  · intro h0 hcontra
    have hcols := congrArg SDF.totalCardsCol hcontra
    simp [get_dynamic_eda_summary_call, he, h0] at hcols

/-- Witness for C10 at a concrete two-row frame without a Total Cards
column: the call writes the column and the caller's frame changes. -/
theorem C10_summary_mutates_caller_witness :
    (get_dynamic_eda_summary_call sdfA).2.totalCardsCol =
      some (sdfA.frows.map totalCardsOf) ∧
    (get_dynamic_eda_summary_call sdfA).2 ≠ sdfA :=
  ⟨(C10_summary_mutates_caller sdfA (by decide)).1,
   (C10_summary_mutates_caller sdfA (by decide)).2 rfl⟩

end Scouting
